import Mathlib

/-!
# eth-rpc-monitor: block-change detection loop and latency probes

A shallow embedding of `main.go`.  The program keeps one global counter,
`latestBlockNumber`, polls the first configured endpoint for the chain height
and, whenever the height reading is strictly greater than the counter, stores
the reading and starts one `checkRPC` goroutine per configured endpoint.  Each
`checkRPC` records at most one observation in a label-indexed histogram.

Everything the program learns from the outside (the configuration file, the
result of each `Dial` and `BlockNumber` call, the clock) is an explicit input
of the embedded functions; everything the program does to the outside (calls,
log lines, sleeps, goroutine launches) is listed, in source order, in the
returned effect list.
-/

namespace EthRpcMonitor

/-! ## Data model -/

/-- One element of the slice `RPCConfig.RPCEndpoints` (fields `Name`, `URL`). -/
structure RPCEndpoint where
  Name : String
  URL : String
deriving DecidableEq, Repr

/-- The struct `RPCConfig`: the ordered list of endpoints read from `config.yaml`. -/
structure RPCConfig where
  RPCEndpoints : List RPCEndpoint
deriving DecidableEq, Repr

/-- The global `var latestBlockNumber uint64`: it carries no initialiser, so its
value at process start is the zero value.  The program only compares and assigns
it (no arithmetic), so heights are modelled as natural numbers. -/
def latestBlockNumber : Nat := 0

/-- Result of one `client.BlockNumber(context.Background())` call: the pair
`(blockNumber, err)` with `err == nil`, or a non-nil error. -/
inductive Reading where
  | height (blockNumber : Nat)
  | failure (err : String)
deriving DecidableEq, Repr

/-- The constant `time.Second`, in nanoseconds (the unit of `time.Duration`). -/
def Second : Int := 1000000000

/-- Largest `time.Duration` (an int64 count of nanoseconds). -/
def maxDuration : Int := 2 ^ 63 - 1

/-- Smallest `time.Duration`. -/
def minDuration : Int := -(2 ^ 63)

/-- What the main goroutine does to the outside world, in source order. -/
inductive Effect where
  /-- The `fmt.Println` at the top of `main`. -/
  | printStarted
  /-- The call `os.ReadFile("config.yaml")`. -/
  | readConfigFile
  /-- The `fmt.Println` at the end of `loadConfig`. -/
  | printConfigLoaded
  /-- The statement `go startMetricsServer()`. -/
  | goStartMetricsServer
  /-- The call `ethclient.Dial(url)` for the reference endpoint. -/
  | dial (url : String)
  /-- The call `client.BlockNumber(...)` on the reference client. -/
  | blockNumber
  /-- The `log.Printf` after a failed height query. -/
  | logFetchFailed (err : String)
  /-- The call `time.Sleep(d)`. -/
  | sleep (d : Int)
  /-- The call `mu.Lock()`. -/
  | muLock
  /-- The call `mu.Unlock()`. -/
  | muUnlock
  /-- The `fmt.Printf` announcing a new block. -/
  | printNewBlock (blockNumber : Nat)
  /-- The statement `go checkRPC(rpc.Name, rpc.URL)`. -/
  | goCheckRPC (rpcName rpcURL : String)
deriving DecidableEq, Repr

/-- How one pass through the body of `for { ... }` hands control back to the loop:
by `continue` or by reaching the end of the body (`continueLoop`), or by leaving
the loop (`exitLoop`, for a `break` or `return`). -/
inductive LoopCtl where
  | continueLoop
  | exitLoop
deriving DecidableEq, Repr

/-- Outcome of one pass through the loop body of `monitorBlockChanges`. -/
structure Iteration where
  /-- Value of the global `latestBlockNumber` when the pass ends. -/
  latestBlockNumber : Nat
  /-- Effects of the pass, in order. -/
  effects : List Effect
  /-- Whether the loop goes on. -/
  ctl : LoopCtl
deriving DecidableEq, Repr

/-! ## The monitor loop -/

/-- The `go checkRPC(rpc.Name, rpc.URL)` statements of
`for _, rpc := range rpcConfig.RPCEndpoints`. -/
def fanOut (rpcConfig : RPCConfig) : List Effect :=
  rpcConfig.RPCEndpoints.map (fun rpc => Effect.goCheckRPC rpc.Name rpc.URL)

/-- One pass through the body of the `for` loop of `monitorBlockChanges`, started
with the global counter equal to `stored` and with `r` the result of the
`BlockNumber` call of this pass. -/
def loopBody (rpcConfig : RPCConfig) (stored : Nat) (r : Reading) : Iteration :=
  match r with
  | Reading.failure err =>
      { latestBlockNumber := stored
        effects := [Effect.blockNumber, Effect.logFetchFailed err, Effect.sleep (3 * Second)]
        ctl := LoopCtl.continueLoop }
  | Reading.height blockNumber =>
      if blockNumber > stored then
        { latestBlockNumber := blockNumber
          effects :=
            [Effect.blockNumber, Effect.muLock, Effect.printNewBlock blockNumber]
              ++ fanOut rpcConfig
              ++ [Effect.muUnlock, Effect.sleep (1 * Second)]
          ctl := LoopCtl.continueLoop }
      else
        { latestBlockNumber := stored
          effects :=
            [Effect.blockNumber, Effect.muLock, Effect.muUnlock, Effect.sleep (1 * Second)]
          ctl := LoopCtl.continueLoop }

/-- The passes of the `for` loop that consume the given finite sequence of poll
results, in order; the loop itself never ends, so this is the run up to the last
result supplied. -/
def iterations (rpcConfig : RPCConfig) : Nat → List Reading → List Iteration
  | _, [] => []
  | stored, r :: rs =>
      let it := loopBody rpcConfig stored r
      match it.ctl with
      | LoopCtl.continueLoop => it :: iterations rpcConfig it.latestBlockNumber rs
      | LoopCtl.exitLoop => [it]

/-- Value of the global counter after a list of passes that started at `stored`. -/
def heightAfter (stored : Nat) (its : List Iteration) : Nat :=
  match its.getLast? with
  | some it => it.latestBlockNumber
  | none => stored

/-- Value of the global counter after the loop has consumed `rs`. -/
def storedAfter (rpcConfig : RPCConfig) (stored : Nat) (rs : List Reading) : Nat :=
  heightAfter stored (iterations rpcConfig stored rs)

/-- All effects of a list of passes, in order. -/
def traceOf (its : List Iteration) : List Effect :=
  its.foldr (fun it acc => it.effects ++ acc) []

/-- The heights announced as new blocks in an effect list, in order. -/
def newBlockEvents (es : List Effect) : List Nat :=
  es.filterMap (fun e => match e with
    | Effect.printNewBlock n => some n
    | _ => none)

/-- The `(rpcName, rpcURL)` arguments of the `checkRPC` goroutines started in an
effect list, in order. -/
def launchedProbes (es : List Effect) : List (String × String) :=
  es.filterMap (fun e => match e with
    | Effect.goCheckRPC n u => some (n, u)
    | _ => none)

/-- Total time passed to `time.Sleep` in an effect list, in nanoseconds. -/
def sleptFor (es : List Effect) : Int :=
  (es.filterMap (fun e => match e with
    | Effect.sleep d => some d
    | _ => none)).sum

/-- Number of reference height queries in an effect list. -/
def heightQueries (es : List Effect) : Nat :=
  es.count Effect.blockNumber

/-- The successful readings of a sequence of poll results, in order. -/
def successes (rs : List Reading) : List Nat :=
  rs.filterMap (fun r => match r with
    | Reading.height n => some n
    | Reading.failure _ => none)

/-! ## Start-up -/

/-- Why the process stopped. -/
inductive Termination where
  /-- The `log.Fatalf` in `loadConfig` after `os.ReadFile` failed. -/
  | fatalReadConfig (err : String)
  /-- The `log.Fatalf` in `loadConfig` after `yaml.Unmarshal` failed. -/
  | fatalParseConfig (err : String)
  /-- Run-time panic of the index expression `rpcConfig.RPCEndpoints[0]`. -/
  | panicIndexOutOfRange
  /-- The `log.Fatalf` in `monitorBlockChanges` after `ethclient.Dial` failed. -/
  | fatalDial (err : String)
deriving DecidableEq, Repr

/-- A run of the main goroutine up to the last poll result supplied. -/
structure ProcessRun where
  /-- Value of the global `latestBlockNumber`. -/
  latestBlockNumber : Nat
  /-- Effects so far, in order. -/
  effects : List Effect
  /-- Equal to `none` while the polling loop is still running. -/
  stopped : Option Termination
deriving DecidableEq, Repr

/-- What the environment answers during a run of `main`. -/
structure World where
  /-- Result of `os.ReadFile("config.yaml")`: the contents, or an error. -/
  readFile : Except String String
  /-- Result of `yaml.Unmarshal(file, &rpcConfig)`: the filled `rpcConfig`, or an error. -/
  unmarshal : String → Except String RPCConfig
  /-- Error returned by `ethclient.Dial` for the reference endpoint, if any. -/
  dialErr : Option String
  /-- Results of the successive `client.BlockNumber` calls on the reference client. -/
  readings : List Reading

/-- The function `loadConfig`: the loaded configuration, or the fatal exit. -/
def loadConfig (w : World) : Except Termination RPCConfig :=
  match w.readFile with
  | Except.error err => Except.error (Termination.fatalReadConfig err)
  | Except.ok file =>
      match w.unmarshal file with
      | Except.error err => Except.error (Termination.fatalParseConfig err)
      | Except.ok rpcConfig => Except.ok rpcConfig

/-- The function `monitorBlockChanges`, run with the global counter equal to
`stored` on entry. -/
def monitorBlockChanges (rpcConfig : RPCConfig) (stored : Nat) (dialErr : Option String)
    (readings : List Reading) : ProcessRun :=
  match rpcConfig.RPCEndpoints[0]? with
  | none => { latestBlockNumber := stored, effects := [], stopped := some Termination.panicIndexOutOfRange }
  | some reference =>
      match dialErr with
      | some err =>
          { latestBlockNumber := stored
            effects := [Effect.dial reference.URL]
            stopped := some (Termination.fatalDial err) }
      | none =>
          let its := iterations rpcConfig stored readings
          { latestBlockNumber := heightAfter stored its
            effects := Effect.dial reference.URL :: traceOf its
            stopped := none }

/-- The function `main`. -/
def main (w : World) : ProcessRun :=
  match loadConfig w with
  | Except.error t =>
      { latestBlockNumber := latestBlockNumber
        effects := [Effect.printStarted, Effect.readConfigFile]
        stopped := some t }
  | Except.ok rpcConfig =>
      let run := monitorBlockChanges rpcConfig latestBlockNumber w.dialErr w.readings
      { run with
        effects :=
          [Effect.printStarted, Effect.readConfigFile, Effect.printConfigLoaded,
            Effect.goStartMetricsServer] ++ run.effects }

/-! ## The latency probe -/

/-- Label values of one histogram child, in the order of the label names
`rpc_name`, `rpc_url`. -/
abbrev Label := String × String

/-- State of `rpcLatencyHistogram`: every value passed to `Observe`, with the label
pair of the child it was recorded under, in recording order.  The buckets, count
and sum of a child are functions of the values recorded under its label pair.
The type `V` is the type of observed values (`float64` in the program). -/
abbrev HistogramVec (V : Type) := List (Label × V)

/-- The call `rpcLatencyHistogram.WithLabelValues(name, url).Observe(v)`. -/
def HistogramVec.observe {V : Type} (h : HistogramVec V) (name url : String) (v : V) :
    HistogramVec V :=
  h ++ [((name, url), v)]

/-- The values recorded under one label pair, in recording order. -/
def HistogramVec.samples {V : Type} (h : HistogramVec V) (l : Label) : List V :=
  (h.filter (fun o => decide (o.1 = l))).map (fun o => o.2)

/-- The observation count of the child for one label pair. -/
def HistogramVec.sampleCount {V : Type} (h : HistogramVec V) (l : Label) : Nat :=
  (h.samples l).length

/-- The call `time.Since(start)` when the clock reads `now`: the difference in
nanoseconds, kept within the range of `time.Duration`. -/
def timeSince (now start : Int) : Int :=
  max minDuration (min maxDuration (now - start))

/-- What one `checkRPC` goroutine does to the outside world, in source order. -/
inductive ProbeEffect (V : Type) where
  /-- The call `ethclient.Dial(rpcURL)`. -/
  | dial (rpcURL : String)
  /-- The `log.Printf` after a failed `Dial`. -/
  | logConnectFailed (rpcName rpcURL err : String)
  /-- The call `time.Now()`. -/
  | timeNow
  /-- The call `client.BlockNumber(...)`. -/
  | blockNumber
  /-- The `log.Printf` after a failed `BlockNumber`. -/
  | logFetchFailed (rpcName rpcURL err : String)
  /-- The call `time.Since(startTime)`. -/
  | timeSince
  /-- The call `rpcLatencyHistogram.WithLabelValues(rpcName, rpcURL).Observe(v)`. -/
  | observe (rpcName rpcURL : String) (v : V)
  /-- The three `fmt.Printf` lines reporting the result. -/
  | printResult (rpcName rpcURL : String) (blockNumber : Nat) (requestLatency : Int)
deriving DecidableEq, Repr

/-- What the environment answers during one run of `checkRPC`.  Clock values are
readings of the monotonic clock, in nanoseconds. -/
structure ProbeWorld where
  /-- Clock value when `checkRPC` is entered, before `Dial` is called. -/
  clockAtEntry : Int
  /-- Error returned by `ethclient.Dial(rpcURL)`, if any. -/
  dialErr : Option String
  /-- Clock value read by `time.Now()`, after `Dial` has returned. -/
  clockAfterDial : Int
  /-- Result of `client.BlockNumber(...)`. -/
  blockNumber : Reading
  /-- Clock value read by `time.Since(startTime)`, after `BlockNumber` has returned. -/
  clockAfterRequest : Int
deriving DecidableEq, Repr

/-- Outcome of one run of `checkRPC`; the function has no result value, so there is
nothing besides the histogram and the effects. -/
structure ProbeRun (V : Type) where
  /-- State of `rpcLatencyHistogram` when the run ends. -/
  histogram : HistogramVec V
  /-- Effects of the run, in order. -/
  effects : List (ProbeEffect V)

/-- The function `checkRPC(rpcName, rpcURL)`, run on histogram state `hist`.
The parameter `seconds` is `time.Duration.Seconds`, the conversion of a duration
to the observed value. -/
def checkRPC {V : Type} (seconds : Int → V) (hist : HistogramVec V) (rpcName rpcURL : String)
    (w : ProbeWorld) : ProbeRun V :=
  match w.dialErr with
  | some err =>
      { histogram := hist
        effects := [ProbeEffect.dial rpcURL, ProbeEffect.logConnectFailed rpcName rpcURL err] }
  | none =>
      let startTime := w.clockAfterDial
      match w.blockNumber with
      | Reading.failure err =>
          { histogram := hist
            effects :=
              [ProbeEffect.dial rpcURL, ProbeEffect.timeNow, ProbeEffect.blockNumber,
                ProbeEffect.logFetchFailed rpcName rpcURL err] }
      | Reading.height blockNumber =>
          let requestLatency := timeSince w.clockAfterRequest startTime
          { histogram := hist.observe rpcName rpcURL (seconds requestLatency)
            effects :=
              [ProbeEffect.dial rpcURL, ProbeEffect.timeNow, ProbeEffect.blockNumber,
                ProbeEffect.timeSince,
                ProbeEffect.observe rpcName rpcURL (seconds requestLatency),
                ProbeEffect.printResult rpcName rpcURL blockNumber requestLatency] }

/-- The values passed to `Observe` in an effect list, with their label pairs. -/
def observations {V : Type} (es : List (ProbeEffect V)) : List (Label × V) :=
  es.filterMap (fun e => match e with
    | ProbeEffect.observe n u v => some ((n, u), v)
    | _ => none)

/-- A run of `checkRPC` fails when `Dial` or `BlockNumber` returns an error. -/
def ProbeWorld.fails (w : ProbeWorld) : Bool :=
  match w.dialErr, w.blockNumber with
  | some _, _ => true
  | none, Reading.failure _ => true
  | none, Reading.height _ => false

/-- Both clock values lie in the range of the monotonic clock (a non-negative
int64 count of nanoseconds). -/
def ProbeWorld.clockInRange (w : ProbeWorld) : Prop :=
  0 ≤ w.clockAfterDial ∧ w.clockAfterDial < 2 ^ 63 ∧
    0 ≤ w.clockAfterRequest ∧ w.clockAfterRequest < 2 ^ 63

instance (w : ProbeWorld) : Decidable w.clockInRange := by
  unfold ProbeWorld.clockInRange; infer_instance

/-! ## Fixtures for the worked scenarios -/

/-- The two-endpoint registry `[(A, urlA), (B, urlB)]`; `A`, the first entry, is the
reference endpoint. -/
def registryAB : RPCConfig :=
  { RPCEndpoints := [{ Name := "A", URL := "urlA" }, { Name := "B", URL := "urlB" }] }

/-- An environment in which start-up succeeds: `config.yaml` is readable and parses
to `rpcConfig`, the reference `Dial` succeeds, and the reference height queries
return `heights`, all successfully. -/
def startedWorld (rpcConfig : RPCConfig) (heights : List Nat) : World :=
  { readFile := Except.ok "rpc_endpoints"
    unmarshal := fun _ => Except.ok rpcConfig
    dialErr := none
    readings := heights.map Reading.height }

/-- An environment in which `config.yaml` is readable and parses, but to a
configuration that holds zero endpoints. -/
def emptyConfigWorld (readings : List Reading) : World :=
  { readFile := Except.ok "rpc_endpoints: []"
    unmarshal := fun _ => Except.ok { RPCEndpoints := [] }
    dialErr := none
    readings := readings }

/-! ## Basic facts about the loop -/

theorem loopBody_ctl (rpcConfig : RPCConfig) (stored : Nat) (r : Reading) :
    (loopBody rpcConfig stored r).ctl = LoopCtl.continueLoop := by
  unfold loopBody
  cases r with
  | failure err => rfl
  | height n => by_cases h : n > stored <;> simp [h]

theorem iterations_cons (rpcConfig : RPCConfig) (stored : Nat) (r : Reading) (rs : List Reading) :
    iterations rpcConfig stored (r :: rs) =
      loopBody rpcConfig stored r ::
        iterations rpcConfig (loopBody rpcConfig stored r).latestBlockNumber rs := by
  simp only [iterations, loopBody_ctl]

theorem loopBody_height (rpcConfig : RPCConfig) (stored : Nat) (r : Reading) :
    (loopBody rpcConfig stored r).latestBlockNumber =
      match r with
      | Reading.height n => max stored n
      | Reading.failure _ => stored := by
  unfold loopBody
  cases r with
  | failure err => rfl
  | height n =>
      by_cases h : n > stored
      · simp [h]; omega
      · simp [h]; omega

theorem heightAfter_cons (stored : Nat) (it : Iteration) (its : List Iteration) :
    heightAfter stored (it :: its) = heightAfter it.latestBlockNumber its := by
  cases its with
  | nil => simp [heightAfter]
  | cons a t =>
      have hlast : (a :: t).getLast? = some ((a :: t).getLast (List.cons_ne_nil a t)) :=
        List.getLast?_eq_getLast _ _
      simp [heightAfter, List.getLast?_cons_cons, hlast]

theorem storedAfter_nil (rpcConfig : RPCConfig) (stored : Nat) :
    storedAfter rpcConfig stored [] = stored := by
  simp [storedAfter, iterations, heightAfter]

theorem storedAfter_cons (rpcConfig : RPCConfig) (stored : Nat) (r : Reading)
    (rs : List Reading) :
    storedAfter rpcConfig stored (r :: rs) =
      storedAfter rpcConfig (loopBody rpcConfig stored r).latestBlockNumber rs := by
  simp [storedAfter, iterations_cons, heightAfter_cons]

theorem iterations_append (rpcConfig : RPCConfig) (stored : Nat) (pre post : List Reading) :
    iterations rpcConfig stored (pre ++ post) =
      iterations rpcConfig stored pre ++
        iterations rpcConfig (storedAfter rpcConfig stored pre) post := by
  induction pre generalizing stored with
  | nil => simp [iterations, storedAfter_nil]
  | cons r rs ih => simp [iterations_cons, storedAfter_cons, ih]

theorem iterations_snoc (rpcConfig : RPCConfig) (stored : Nat) (pre : List Reading)
    (r : Reading) :
    iterations rpcConfig stored (pre ++ [r]) =
      iterations rpcConfig stored pre ++
        [loopBody rpcConfig (storedAfter rpcConfig stored pre) r] := by
  rw [iterations_append, iterations_cons]; rfl

theorem storedAfter_snoc (rpcConfig : RPCConfig) (stored : Nat) (pre : List Reading)
    (r : Reading) :
    storedAfter rpcConfig stored (pre ++ [r]) =
      (loopBody rpcConfig (storedAfter rpcConfig stored pre) r).latestBlockNumber := by
  show heightAfter stored (iterations rpcConfig stored (pre ++ [r])) = _
  rw [iterations_snoc]
  simp [heightAfter]

theorem storedAfter_eq_foldl_max (rpcConfig : RPCConfig) (stored : Nat) (rs : List Reading) :
    storedAfter rpcConfig stored rs = (successes rs).foldl max stored := by
  induction rs generalizing stored with
  | nil => simp [storedAfter_nil, successes]
  | cons r rs ih =>
      rw [storedAfter_cons, ih, loopBody_height]
      cases r with
      | failure err => simp [successes]
      | height n => simp [successes]

theorem le_foldl_max (l : List Nat) (a : Nat) : a ≤ l.foldl max a := by
  induction l generalizing a with
  | nil => simp
  | cons x xs ih => exact le_trans (le_max_left a x) (ih (max a x))

theorem foldl_max_lt_iff (l : List Nat) (a h : Nat) :
    l.foldl max a < h ↔ a < h ∧ ∀ x ∈ l, x < h := by
  induction l generalizing a with
  | nil => simp
  | cons x xs ih =>
      simp only [List.foldl_cons, ih, List.mem_cons, forall_eq_or_imp, max_lt_iff]
      tauto

theorem newBlockEvents_fanOut (rpcConfig : RPCConfig) :
    newBlockEvents (fanOut rpcConfig) = [] := by
  unfold newBlockEvents fanOut
  induction rpcConfig.RPCEndpoints with
  | nil => rfl
  | cons e es ih => simp

theorem launchedProbes_fanOut (rpcConfig : RPCConfig) :
    launchedProbes (fanOut rpcConfig) =
      rpcConfig.RPCEndpoints.map (fun rpc => (rpc.Name, rpc.URL)) := by
  unfold launchedProbes fanOut
  induction rpcConfig.RPCEndpoints with
  | nil => rfl
  | cons e es ih => simpa using ih

theorem loopBody_higher (rpcConfig : RPCConfig) (stored n : Nat) (h : stored < n) :
    loopBody rpcConfig stored (Reading.height n) =
      { latestBlockNumber := n
        effects :=
          [Effect.blockNumber, Effect.muLock, Effect.printNewBlock n]
            ++ fanOut rpcConfig
            ++ [Effect.muUnlock, Effect.sleep (1 * Second)]
        ctl := LoopCtl.continueLoop } := by
  simp [loopBody, h]

theorem loopBody_not_higher (rpcConfig : RPCConfig) (stored n : Nat) (h : n ≤ stored) :
    loopBody rpcConfig stored (Reading.height n) =
      { latestBlockNumber := stored
        effects :=
          [Effect.blockNumber, Effect.muLock, Effect.muUnlock, Effect.sleep (1 * Second)]
        ctl := LoopCtl.continueLoop } := by
  simp [loopBody, Nat.not_lt.mpr h]

theorem newBlockEvents_higher (rpcConfig : RPCConfig) (stored n : Nat) (h : stored < n) :
    newBlockEvents (loopBody rpcConfig stored (Reading.height n)).effects = [n] := by
  rw [loopBody_higher rpcConfig stored n h]
  have hf := newBlockEvents_fanOut rpcConfig
  unfold newBlockEvents at hf ⊢
  simp [List.filterMap_append, hf]

theorem launchedProbes_higher (rpcConfig : RPCConfig) (stored n : Nat) (h : stored < n) :
    launchedProbes (loopBody rpcConfig stored (Reading.height n)).effects =
      rpcConfig.RPCEndpoints.map (fun rpc => (rpc.Name, rpc.URL)) := by
  rw [loopBody_higher rpcConfig stored n h]
  have hf := launchedProbes_fanOut rpcConfig
  unfold launchedProbes at hf ⊢
  simp [List.filterMap_append, hf]

theorem main_started (w : World) (file : String) (rpcConfig : RPCConfig)
    (reference : RPCEndpoint) (rest : List RPCEndpoint)
    (hread : w.readFile = Except.ok file) (hparse : w.unmarshal file = Except.ok rpcConfig)
    (hreg : rpcConfig.RPCEndpoints = reference :: rest) (hdial : w.dialErr = none) :
    main w =
      { latestBlockNumber := storedAfter rpcConfig latestBlockNumber w.readings
        effects :=
          [Effect.printStarted, Effect.readConfigFile, Effect.printConfigLoaded,
            Effect.goStartMetricsServer, Effect.dial reference.URL]
            ++ traceOf (iterations rpcConfig latestBlockNumber w.readings)
        stopped := none } := by
  simp [main, loadConfig, hread, hparse, monitorBlockChanges, hreg, hdial, storedAfter]

theorem loopBody_effects_head (rpcConfig : RPCConfig) (stored : Nat) (r : Reading) :
    (loopBody rpcConfig stored r).effects.head? = some Effect.blockNumber := by
  unfold loopBody
  cases r with
  | failure err => rfl
  | height n => by_cases h : n > stored <;> simp [h]

theorem pair_injective :
    Function.Injective (fun rpc : RPCEndpoint => (rpc.Name, rpc.URL)) := by
  intro a b hab
  cases a; cases b
  simp only [Prod.mk.injEq] at hab
  simp [hab.1, hab.2]

theorem count_pairs (l : List RPCEndpoint) (rpc : RPCEndpoint) :
    (l.map (fun e => (e.Name, e.URL))).count (rpc.Name, rpc.URL) = l.count rpc := by
  induction l with
  | nil => rfl
  | cons e es ih =>
      have hiff : ((e.Name, e.URL) = (rpc.Name, rpc.URL)) ↔ e = rpc :=
        ⟨fun h => pair_injective h, fun h => by rw [h]⟩
      by_cases he : e = rpc
      · have hp : (e.Name, e.URL) = (rpc.Name, rpc.URL) := hiff.mpr he
        simp [List.count_cons, ih, he]
      · have hp : ¬ (e.Name, e.URL) = (rpc.Name, rpc.URL) := fun h => he (hiff.mp h)
        have hp2 : ¬ (e.Name = rpc.Name ∧ e.URL = rpc.URL) := by
          intro h
          exact hp (by rw [h.1, h.2])
        simp [List.count_cons, ih, he, hp2]

theorem newBlockEvents_append (xs ys : List Effect) :
    newBlockEvents (xs ++ ys) = newBlockEvents xs ++ newBlockEvents ys := by
  simp [newBlockEvents, List.filterMap_append]

theorem launchedProbes_append (xs ys : List Effect) :
    launchedProbes (xs ++ ys) = launchedProbes xs ++ launchedProbes ys := by
  simp [launchedProbes, List.filterMap_append]

theorem iterations_nil (rpcConfig : RPCConfig) (stored : Nat) :
    iterations rpcConfig stored [] = [] := rfl

theorem traceOf_nil : traceOf [] = [] := rfl

theorem newBlockEvents_nil : newBlockEvents [] = [] := rfl

theorem launchedProbes_nil : launchedProbes [] = [] := rfl

theorem traceOf_cons (it : Iteration) (its : List Iteration) :
    traceOf (it :: its) = it.effects ++ traceOf its := rfl

theorem newBlockEvents_loopBody (rpcConfig : RPCConfig) (stored n : Nat) :
    newBlockEvents (loopBody rpcConfig stored (Reading.height n)).effects =
      if stored < n then [n] else [] := by
  by_cases h : stored < n
  · rw [newBlockEvents_higher rpcConfig stored n h, if_pos h]
  · rw [loopBody_not_higher rpcConfig stored n (Nat.not_lt.mp h), if_neg h]
    rfl

theorem launchedProbes_loopBody (rpcConfig : RPCConfig) (stored n : Nat) :
    launchedProbes (loopBody rpcConfig stored (Reading.height n)).effects =
      if stored < n then rpcConfig.RPCEndpoints.map (fun rpc => (rpc.Name, rpc.URL)) else [] := by
  by_cases h : stored < n
  · rw [launchedProbes_higher rpcConfig stored n h, if_pos h]
  · rw [loopBody_not_higher rpcConfig stored n (Nat.not_lt.mp h), if_neg h]
    rfl

theorem newBlockEvents_failure (rpcConfig : RPCConfig) (stored : Nat) (err : String) :
    newBlockEvents (loopBody rpcConfig stored (Reading.failure err)).effects = [] := rfl

theorem samples_observe_self {V : Type} (hist : HistogramVec V) (name url : String) (v : V) :
    (hist.observe name url v).samples (name, url) = hist.samples (name, url) ++ [v] := by
  simp [HistogramVec.observe, HistogramVec.samples, List.filter_append]

theorem samples_observe_other {V : Type} (hist : HistogramVec V) (name url : String) (v : V)
    (l : Label) (hl : l ≠ (name, url)) :
    (hist.observe name url v).samples l = hist.samples l := by
  have hne : ¬ ((name, url) = l) := fun h => hl h.symm
  simp [HistogramVec.observe, HistogramVec.samples, List.filter_append, hne]

theorem timeSince_in_range (now start : Int) (h0 : 0 ≤ start) (h1 : start < 2 ^ 63)
    (h2 : 0 ≤ now) (h3 : now < 2 ^ 63) : timeSince now start = now - start := by
  unfold timeSince maxDuration minDuration
  norm_num at h1 h3 ⊢
  omega

theorem checkRPC_dial_failed {V : Type} (seconds : Int → V) (hist : HistogramVec V)
    (rpcName rpcURL : String) (w : ProbeWorld) (err : String) (hd : w.dialErr = some err) :
    checkRPC seconds hist rpcName rpcURL w =
      { histogram := hist
        effects := [ProbeEffect.dial rpcURL, ProbeEffect.logConnectFailed rpcName rpcURL err] } := by
  simp [checkRPC, hd]

theorem checkRPC_request_failed {V : Type} (seconds : Int → V) (hist : HistogramVec V)
    (rpcName rpcURL : String) (w : ProbeWorld) (err : String) (hd : w.dialErr = none)
    (hb : w.blockNumber = Reading.failure err) :
    checkRPC seconds hist rpcName rpcURL w =
      { histogram := hist
        effects :=
          [ProbeEffect.dial rpcURL, ProbeEffect.timeNow, ProbeEffect.blockNumber,
            ProbeEffect.logFetchFailed rpcName rpcURL err] } := by
  simp [checkRPC, hd, hb]

theorem checkRPC_succeeded {V : Type} (seconds : Int → V) (hist : HistogramVec V)
    (rpcName rpcURL : String) (w : ProbeWorld) (n : Nat) (hd : w.dialErr = none)
    (hb : w.blockNumber = Reading.height n) :
    checkRPC seconds hist rpcName rpcURL w =
      { histogram :=
          hist.observe rpcName rpcURL (seconds (timeSince w.clockAfterRequest w.clockAfterDial))
        effects :=
          [ProbeEffect.dial rpcURL, ProbeEffect.timeNow, ProbeEffect.blockNumber,
            ProbeEffect.timeSince,
            ProbeEffect.observe rpcName rpcURL
              (seconds (timeSince w.clockAfterRequest w.clockAfterDial)),
            ProbeEffect.printResult rpcName rpcURL n
              (timeSince w.clockAfterRequest w.clockAfterDial)] } := by
  simp [checkRPC, hd, hb]

theorem fails_false_iff (w : ProbeWorld) :
    w.fails = false ↔ w.dialErr = none ∧ ∃ n, w.blockNumber = Reading.height n := by
  unfold ProbeWorld.fails
  cases hd : w.dialErr with
  | some err => simp
  | none =>
      cases hb : w.blockNumber with
      | failure err => simp
      | height n => simp

theorem fails_true_iff (w : ProbeWorld) :
    w.fails = true ↔
      (∃ err, w.dialErr = some err) ∨
        (w.dialErr = none ∧ ∃ err, w.blockNumber = Reading.failure err) := by
  unfold ProbeWorld.fails
  cases hd : w.dialErr with
  | some err => simp
  | none =>
      cases hb : w.blockNumber with
      | failure err => simp
      | height n => simp

theorem fires_iff (rpcConfig : RPCConfig) (stored : Nat) (r : Reading) :
    newBlockEvents (loopBody rpcConfig stored r).effects ≠ [] ↔
      ∃ n, r = Reading.height n ∧ stored < n := by
  cases r with
  | failure err => simp [newBlockEvents_failure]
  | height n =>
      rw [newBlockEvents_loopBody]
      by_cases h : stored < n <;> simp [h]

theorem main_effects_of_empty (w : World) (file : String)
    (hread : w.readFile = Except.ok file)
    (hparse : w.unmarshal file = Except.ok { RPCEndpoints := [] }) :
    main w =
      { latestBlockNumber := latestBlockNumber
        effects :=
          [Effect.printStarted, Effect.readConfigFile, Effect.printConfigLoaded,
            Effect.goStartMetricsServer]
        stopped := some Termination.panicIndexOutOfRange } := by
  simp [main, loadConfig, hread, hparse, monitorBlockChanges]

/-! ## The monitor loop: claims -/

/-- C1: from every starting value of the stored height and after every finite
sequence `pre` of poll results, the pass that consumes the next poll result `r`
runs the loop body on the value stored after `pre`, and the value stored after
that pass is at least the value stored before it; a successful reading that is
lower than or equal to the stored value leaves the stored value as it was, and
so does a failed query. -/
theorem stored_height_never_decreases (rpcConfig : RPCConfig) (stored : Nat)
    (pre : List Reading) (r : Reading) :
    iterations rpcConfig stored (pre ++ [r]) =
        iterations rpcConfig stored pre ++
          [loopBody rpcConfig (storedAfter rpcConfig stored pre) r]
      ∧ storedAfter rpcConfig stored pre ≤ storedAfter rpcConfig stored (pre ++ [r])
      ∧ stored ≤ (loopBody rpcConfig stored r).latestBlockNumber
      ∧ (∀ n, r = Reading.height n → n ≤ storedAfter rpcConfig stored pre →
          storedAfter rpcConfig stored (pre ++ [r]) = storedAfter rpcConfig stored pre)
      ∧ (∀ err, r = Reading.failure err →
          storedAfter rpcConfig stored (pre ++ [r]) = storedAfter rpcConfig stored pre) := by
  refine ⟨iterations_snoc rpcConfig stored pre r, ?_, ?_, ?_, ?_⟩
  · rw [storedAfter_snoc, loopBody_height]
    cases r with
    | failure err => exact le_refl _
    | height n => exact le_max_left _ _
  · rw [loopBody_height]
    cases r with
    | failure err => exact le_refl _
    | height n => exact le_max_left _ _
  · intro n hr hn
    subst hr
    rw [storedAfter_snoc, loopBody_not_higher rpcConfig _ n hn]
  · intro err hr
    subst hr
    rw [storedAfter_snoc]
    rfl

/-- Concrete instance: stored height 9, then a reading of 8 is discarded. -/
theorem stored_height_never_decreases_witness :
    storedAfter registryAB 7 [Reading.height 9, Reading.failure "timeout"] = 9
      ∧ storedAfter registryAB 7
          ([Reading.height 9, Reading.failure "timeout"] ++ [Reading.height 8]) = 9 :=
  ⟨by decide,
    ((stored_height_never_decreases registryAB 7
      [Reading.height 9, Reading.failure "timeout"] (Reading.height 8)).2.2.2.1
        8 rfl (by decide)).trans (by decide)⟩

/-- C2: when the reference reading `H` is strictly greater than the stored height
`C`, one pass of the loop body stores `H`, announces exactly the one new block
`H`, and starts exactly one `checkRPC` goroutine per registry entry, in registry
order, each with that entry's own name and URL; an entry that occurs `k` times in
the registry is probed `k` times.  This holds for every registry size, in
particular for every registry with at least one entry. -/
theorem new_block_probes_every_endpoint (rpcConfig : RPCConfig) (C H : Nat) (hgt : C < H) :
    (loopBody rpcConfig C (Reading.height H)).latestBlockNumber = H
      ∧ newBlockEvents (loopBody rpcConfig C (Reading.height H)).effects = [H]
      ∧ launchedProbes (loopBody rpcConfig C (Reading.height H)).effects =
          rpcConfig.RPCEndpoints.map (fun rpc => (rpc.Name, rpc.URL))
      ∧ (launchedProbes (loopBody rpcConfig C (Reading.height H)).effects).length =
          rpcConfig.RPCEndpoints.length
      ∧ (∀ rpc : RPCEndpoint,
          (launchedProbes (loopBody rpcConfig C (Reading.height H)).effects).count
              (rpc.Name, rpc.URL) = rpcConfig.RPCEndpoints.count rpc)
      ∧ (loopBody rpcConfig C (Reading.height H)).effects =
          [Effect.blockNumber, Effect.muLock, Effect.printNewBlock H]
            ++ rpcConfig.RPCEndpoints.map (fun rpc => Effect.goCheckRPC rpc.Name rpc.URL)
            ++ [Effect.muUnlock, Effect.sleep (1 * Second)] := by
  have hp := launchedProbes_higher rpcConfig C H hgt
  refine ⟨?_, newBlockEvents_higher rpcConfig C H hgt, hp, ?_, ?_, ?_⟩
  · rw [loopBody_higher rpcConfig C H hgt]
  · rw [hp, List.length_map]
  · intro rpc
    rw [hp]
    exact count_pairs rpcConfig.RPCEndpoints rpc
  · rw [loopBody_higher rpcConfig C H hgt]
    rfl

/-- Concrete instance: stored height 100, reading 101, registry of two endpoints. -/
theorem new_block_probes_every_endpoint_witness :
    launchedProbes (loopBody registryAB 100 (Reading.height 101)).effects =
        [("A", "urlA"), ("B", "urlB")]
      ∧ (loopBody registryAB 100 (Reading.height 101)).latestBlockNumber = 101 :=
  ⟨(new_block_probes_every_endpoint registryAB 100 101 (by decide)).2.2.1,
    (new_block_probes_every_endpoint registryAB 100 101 (by decide)).1⟩

/-- C3: when the reference reading `H` is lower than or equal to the stored height
`C`, one pass of the loop body announces no new block, starts no `checkRPC`
goroutine, logs no error and leaves the stored height equal to `C`: its effects
are the height query, the lock, the unlock and the one-second sleep.  In
particular, from any stored height `c`, polling the same height `n` twice in a
row announces nothing and probes nothing on the second poll. -/
theorem no_event_unless_higher (rpcConfig : RPCConfig) (C H : Nat) (hle : H ≤ C)
    (c n : Nat) :
    (loopBody rpcConfig C (Reading.height H)).latestBlockNumber = C
      ∧ newBlockEvents (loopBody rpcConfig C (Reading.height H)).effects = []
      ∧ launchedProbes (loopBody rpcConfig C (Reading.height H)).effects = []
      ∧ (loopBody rpcConfig C (Reading.height H)).effects =
          [Effect.blockNumber, Effect.muLock, Effect.muUnlock, Effect.sleep (1 * Second)]
      ∧ (loopBody rpcConfig C (Reading.height H)).ctl = LoopCtl.continueLoop
      ∧ (∀ err, Effect.logFetchFailed err ∉ (loopBody rpcConfig C (Reading.height H)).effects)
      ∧ (∃ first second,
          iterations rpcConfig c [Reading.height n, Reading.height n] = [first, second]
            ∧ newBlockEvents second.effects = []
            ∧ launchedProbes second.effects = []
            ∧ second.latestBlockNumber = first.latestBlockNumber) := by
  have hb := loopBody_not_higher rpcConfig C H hle
  refine ⟨by rw [hb], by rw [hb]; rfl, by rw [hb]; rfl, by rw [hb], by rw [hb], ?_, ?_⟩
  · intro err
    rw [hb]
    simp
  · refine ⟨loopBody rpcConfig c (Reading.height n),
      loopBody rpcConfig (loopBody rpcConfig c (Reading.height n)).latestBlockNumber
        (Reading.height n), ?_, ?_, ?_, ?_⟩
    · rw [iterations_cons, iterations_cons]
      rfl
    all_goals
      have hn : n ≤ (loopBody rpcConfig c (Reading.height n)).latestBlockNumber := by
        rw [loopBody_height]
        exact le_max_right _ _
      rw [loopBody_not_higher rpcConfig _ n hn]
    · rfl
    · rfl

/-- Concrete instance: stored height 12, reading 11. -/
theorem no_event_unless_higher_witness :
    newBlockEvents (loopBody registryAB 12 (Reading.height 11)).effects = []
      ∧ launchedProbes (loopBody registryAB 12 (Reading.height 11)).effects = []
      ∧ (loopBody registryAB 12 (Reading.height 11)).latestBlockNumber = 12 :=
  ⟨(no_event_unless_higher registryAB 12 11 (by decide) 0 10).2.1,
    (no_event_unless_higher registryAB 12 11 (by decide) 0 10).2.2.1,
    (no_event_unless_higher registryAB 12 11 (by decide) 0 10).1⟩

/-- C6: when the reference height query fails, the pass of the loop body leaves the
stored height as it was, starts no `checkRPC` goroutine, and its effects are the
query, the log line and one sleep of three seconds (so three seconds are slept in
total, the one-second sleep at the end of the body is skipped); the pass hands
control back to the loop, whose next pass starts, on the unchanged stored height,
with a new reference height query. -/
theorem failed_query_backs_off_and_retries (rpcConfig : RPCConfig) (C : Nat) (err : String)
    (next : Reading) (rest : List Reading) :
    loopBody rpcConfig C (Reading.failure err) =
        { latestBlockNumber := C
          effects := [Effect.blockNumber, Effect.logFetchFailed err, Effect.sleep (3 * Second)]
          ctl := LoopCtl.continueLoop }
      ∧ (loopBody rpcConfig C (Reading.failure err)).latestBlockNumber = C
      ∧ launchedProbes (loopBody rpcConfig C (Reading.failure err)).effects = []
      ∧ newBlockEvents (loopBody rpcConfig C (Reading.failure err)).effects = []
      ∧ sleptFor (loopBody rpcConfig C (Reading.failure err)).effects = 3 * Second
      ∧ Effect.sleep (1 * Second) ∉ (loopBody rpcConfig C (Reading.failure err)).effects
      ∧ (loopBody rpcConfig C (Reading.failure err)).ctl = LoopCtl.continueLoop
      ∧ iterations rpcConfig C (Reading.failure err :: next :: rest) =
          loopBody rpcConfig C (Reading.failure err) :: loopBody rpcConfig C next ::
            iterations rpcConfig (loopBody rpcConfig C next).latestBlockNumber rest
      ∧ (loopBody rpcConfig C next).effects.head? = some Effect.blockNumber
      ∧ storedAfter rpcConfig C [Reading.failure err] = C := by
  refine ⟨rfl, rfl, rfl, rfl, ?_, ?_, rfl, ?_, loopBody_effects_head rpcConfig C next, ?_⟩
  · simp [loopBody, sleptFor]
  · simp [loopBody, Second]
  · rw [iterations_cons, iterations_cons]
    rfl
  · rw [storedAfter_cons, storedAfter_nil]
    rfl

/-- C4, as the code behaves: when `main` starts from the initial state (stored
height 0) and the reference readings are 10, 10, 12, 11, 15, exactly three new
blocks are announced, for heights 10, 12 and 15: the first reading is already
higher than the initial stored height.  This holds for every registry, both for
the loop run from the initial stored height and for every run of `main` whose
start-up succeeds. -/
theorem readings_10_10_12_11_15_fire_three_events (rpcConfig : RPCConfig) :
    newBlockEvents (traceOf (iterations rpcConfig latestBlockNumber
        ([10, 10, 12, 11, 15].map Reading.height))) = [10, 12, 15]
      ∧ (newBlockEvents (traceOf (iterations rpcConfig latestBlockNumber
          ([10, 10, 12, 11, 15].map Reading.height)))).length = 3
      ∧ (∀ (w : World) (file : String) (reference : RPCEndpoint) (rest : List RPCEndpoint),
          w.readFile = Except.ok file → w.unmarshal file = Except.ok rpcConfig →
          rpcConfig.RPCEndpoints = reference :: rest → w.dialErr = none →
          w.readings = [10, 10, 12, 11, 15].map Reading.height →
          newBlockEvents (main w).effects = [10, 12, 15]) := by
  have key : newBlockEvents (traceOf (iterations rpcConfig latestBlockNumber
      ([10, 10, 12, 11, 15].map Reading.height))) = [10, 12, 15] := by
    simp [iterations_cons, iterations_nil, traceOf_cons, traceOf_nil, newBlockEvents_append,
      newBlockEvents_loopBody, loopBody_height, latestBlockNumber, newBlockEvents_nil]
  refine ⟨key, by rw [key]; rfl, ?_⟩
  intro w file reference rest hread hparse hreg hdial hreadings
  rw [main_started w file rpcConfig reference rest hread hparse hreg hdial, hreadings]
  show newBlockEvents (_ ++ _) = _
  rw [newBlockEvents_append, key]
  rfl

/-- Concrete instance: the run of `main` on the two-endpoint registry. -/
theorem readings_10_10_12_11_15_fire_three_events_witness :
    newBlockEvents (main (startedWorld registryAB [10, 10, 12, 11, 15])).effects =
      [10, 12, 15] :=
  (readings_10_10_12_11_15_fire_three_events registryAB).2.2
    (startedWorld registryAB [10, 10, 12, 11, 15]) "rpc_endpoints"
    { Name := "A", URL := "urlA" } [{ Name := "B", URL := "urlB" }] rfl rfl rfl rfl rfl

/-- C4, as stated, fails: with readings 10, 10, 12, 11, 15 from the initial state
it is not the case that exactly two new blocks, 12 and 15, are announced. -/
theorem initial_reading_announces_third_block :
    ¬ ((newBlockEvents (main (startedWorld registryAB [10, 10, 12, 11, 15])).effects).length = 2
        ∧ newBlockEvents (main (startedWorld registryAB [10, 10, 12, 11, 15])).effects =
            [12, 15]) := by
  decide

/-! ## The latency probe: claims -/

/-- C7: a run of `checkRPC` that fails, because `Dial` returns an error or because
`BlockNumber` returns an error, leaves the histogram exactly as it was (so the
samples under the probe's own label pair and under every other label pair are
unchanged), calls `Observe` zero times, and ends right after its log line: the
function has no result value, so nothing is handed back to a caller. -/
theorem failed_probe_records_nothing {V : Type} (seconds : Int → V) (hist : HistogramVec V)
    (rpcName rpcURL : String) (w : ProbeWorld) (hfail : w.fails = true) :
    (checkRPC seconds hist rpcName rpcURL w).histogram = hist
      ∧ (∀ l : Label,
          (checkRPC seconds hist rpcName rpcURL w).histogram.samples l = hist.samples l)
      ∧ observations (checkRPC seconds hist rpcName rpcURL w).effects = []
      ∧ ((∃ err, w.dialErr = some err ∧
            (checkRPC seconds hist rpcName rpcURL w).effects =
              [ProbeEffect.dial rpcURL, ProbeEffect.logConnectFailed rpcName rpcURL err])
          ∨ (∃ err, w.dialErr = none ∧ w.blockNumber = Reading.failure err ∧
            (checkRPC seconds hist rpcName rpcURL w).effects =
              [ProbeEffect.dial rpcURL, ProbeEffect.timeNow, ProbeEffect.blockNumber,
                ProbeEffect.logFetchFailed rpcName rpcURL err])) := by
  rcases (fails_true_iff w).mp hfail with ⟨err, hd⟩ | ⟨hd, err, hb⟩
  · rw [checkRPC_dial_failed seconds hist rpcName rpcURL w err hd]
    exact ⟨rfl, fun _ => rfl, rfl, Or.inl ⟨err, hd, rfl⟩⟩
  · rw [checkRPC_request_failed seconds hist rpcName rpcURL w err hd hb]
    exact ⟨rfl, fun _ => rfl, rfl, Or.inr ⟨err, hd, hb, rfl⟩⟩

/-- Concrete instances: one probe whose `Dial` fails, one whose `BlockNumber` fails. -/
theorem failed_probe_records_nothing_witness :
    (checkRPC (fun d : Int => d) [(("A", "urlA"), 7)] "B" "urlB"
        { clockAtEntry := 0, dialErr := some "connection refused", clockAfterDial := 5,
          blockNumber := Reading.height 3, clockAfterRequest := 9 }).histogram =
        [(("A", "urlA"), 7)]
      ∧ (checkRPC (fun d : Int => d) [(("A", "urlA"), 7)] "B" "urlB"
        { clockAtEntry := 0, dialErr := none, clockAfterDial := 5,
          blockNumber := Reading.failure "timeout", clockAfterRequest := 9 }).histogram =
        [(("A", "urlA"), 7)] :=
  ⟨(failed_probe_records_nothing (fun d : Int => d) [(("A", "urlA"), 7)] "B" "urlB"
      { clockAtEntry := 0, dialErr := some "connection refused", clockAfterDial := 5,
        blockNumber := Reading.height 3, clockAfterRequest := 9 } rfl).1,
    (failed_probe_records_nothing (fun d : Int => d) [(("A", "urlA"), 7)] "B" "urlB"
      { clockAtEntry := 0, dialErr := none, clockAfterDial := 5,
        blockNumber := Reading.failure "timeout", clockAfterRequest := 9 } rfl).1⟩

/-- C8: a run of `checkRPC(rpcName, rpcURL)` in which `Dial` and `BlockNumber` both
succeed calls `Observe` exactly once, on the child labelled `(rpcName, rpcURL)`:
the samples under that label pair grow by exactly one value and the samples
under every other label pair are unchanged.  The value is the conversion to
seconds of the difference between the clock value read by `time.Since` right
after `BlockNumber` returned and the clock value read by `time.Now` after `Dial`
returned and right before `BlockNumber` was called; the clock value at entry,
before `Dial`, does not enter the result. -/
theorem successful_probe_records_one_sample {V : Type} (seconds : Int → V)
    (hist : HistogramVec V) (rpcName rpcURL : String) (w : ProbeWorld)
    (hok : w.fails = false) (hclock : w.clockInRange) :
    (checkRPC seconds hist rpcName rpcURL w).histogram =
        hist ++ [((rpcName, rpcURL), seconds (w.clockAfterRequest - w.clockAfterDial))]
      ∧ (checkRPC seconds hist rpcName rpcURL w).histogram.samples (rpcName, rpcURL) =
          hist.samples (rpcName, rpcURL) ++ [seconds (w.clockAfterRequest - w.clockAfterDial)]
      ∧ (checkRPC seconds hist rpcName rpcURL w).histogram.sampleCount (rpcName, rpcURL) =
          hist.sampleCount (rpcName, rpcURL) + 1
      ∧ (∀ l : Label, l ≠ (rpcName, rpcURL) →
          (checkRPC seconds hist rpcName rpcURL w).histogram.samples l = hist.samples l)
      ∧ observations (checkRPC seconds hist rpcName rpcURL w).effects =
          [((rpcName, rpcURL), seconds (w.clockAfterRequest - w.clockAfterDial))]
      ∧ (∃ n, w.blockNumber = Reading.height n ∧
          (checkRPC seconds hist rpcName rpcURL w).effects =
            [ProbeEffect.dial rpcURL, ProbeEffect.timeNow, ProbeEffect.blockNumber,
              ProbeEffect.timeSince,
              ProbeEffect.observe rpcName rpcURL
                (seconds (w.clockAfterRequest - w.clockAfterDial)),
              ProbeEffect.printResult rpcName rpcURL n
                (w.clockAfterRequest - w.clockAfterDial)])
      ∧ (∀ t : Int,
          (checkRPC seconds hist rpcName rpcURL { w with clockAtEntry := t }).histogram =
            (checkRPC seconds hist rpcName rpcURL w).histogram) := by
  obtain ⟨hd, n, hb⟩ := (fails_false_iff w).mp hok
  obtain ⟨h0, h1, h2, h3⟩ := hclock
  have ht := timeSince_in_range w.clockAfterRequest w.clockAfterDial h0 h1 h2 h3
  have hrun := checkRPC_succeeded seconds hist rpcName rpcURL w n hd hb
  rw [ht] at hrun
  refine ⟨?_, ?_, ?_, ?_, ?_, ⟨n, hb, ?_⟩, ?_⟩
  · rw [hrun]; rfl
  · rw [hrun]; exact samples_observe_self hist rpcName rpcURL _
  · rw [hrun]
    simp [HistogramVec.sampleCount, samples_observe_self]
  · intro l hl
    rw [hrun]; exact samples_observe_other hist rpcName rpcURL _ l hl
  · rw [hrun]; rfl
  · rw [hrun]
  · intro t
    rfl

/-- Concrete instance: clock 400 after `Dial`, 650 after the request, sample 250. -/
theorem successful_probe_records_one_sample_witness :
    (checkRPC (fun d : Int => d) [(("A", "urlA"), 7)] "B" "urlB"
        { clockAtEntry := 0, dialErr := none, clockAfterDial := 400,
          blockNumber := Reading.height 101, clockAfterRequest := 650 }).histogram =
      [(("A", "urlA"), 7), (("B", "urlB"), 250)] :=
  (successful_probe_records_one_sample (fun d : Int => d) [(("A", "urlA"), 7)] "B" "urlB"
    { clockAtEntry := 0, dialErr := none, clockAfterDial := 400,
      blockNumber := Reading.height 101, clockAfterRequest := 650 } rfl (by decide)).1

/-- C10: started from the initial stored height 0, after every finite sequence
`pre` of poll results the stored height is the maximum of 0 and the successful
readings of `pre`.  The pass that consumes the next poll result `r` announces a
new block exactly when `r` is a successful reading that is greater than 0 and
greater than every earlier successful reading; it then announces that one height
and probes every endpoint, and otherwise probes none.  In particular, when no
earlier poll succeeded, a successful reading `n` announces a new block if and
only if `0 < n`.  The same stored height is reported by every run of `main`
whose start-up succeeds. -/
theorem stored_height_is_running_maximum (rpcConfig : RPCConfig) (pre : List Reading)
    (r : Reading) :
    storedAfter rpcConfig latestBlockNumber pre = (successes pre).foldl max 0
      ∧ iterations rpcConfig latestBlockNumber (pre ++ [r]) =
          iterations rpcConfig latestBlockNumber pre ++
            [loopBody rpcConfig (storedAfter rpcConfig latestBlockNumber pre) r]
      ∧ (newBlockEvents
            (loopBody rpcConfig (storedAfter rpcConfig latestBlockNumber pre) r).effects ≠ [] ↔
          ∃ n, r = Reading.height n ∧ 0 < n ∧ ∀ m ∈ successes pre, m < n)
      ∧ (∀ n, r = Reading.height n → 0 < n → (∀ m ∈ successes pre, m < n) →
          newBlockEvents
              (loopBody rpcConfig (storedAfter rpcConfig latestBlockNumber pre) r).effects = [n]
            ∧ launchedProbes
              (loopBody rpcConfig (storedAfter rpcConfig latestBlockNumber pre) r).effects =
                rpcConfig.RPCEndpoints.map (fun rpc => (rpc.Name, rpc.URL)))
      ∧ (newBlockEvents
            (loopBody rpcConfig (storedAfter rpcConfig latestBlockNumber pre) r).effects = [] →
          launchedProbes
            (loopBody rpcConfig (storedAfter rpcConfig latestBlockNumber pre) r).effects = [])
      ∧ (∀ n, r = Reading.height n → successes pre = [] →
          (newBlockEvents
              (loopBody rpcConfig (storedAfter rpcConfig latestBlockNumber pre) r).effects ≠ [] ↔
            0 < n))
      ∧ (∀ (w : World) (file : String) (reference : RPCEndpoint) (rest : List RPCEndpoint),
          w.readFile = Except.ok file → w.unmarshal file = Except.ok rpcConfig →
          rpcConfig.RPCEndpoints = reference :: rest → w.dialErr = none →
          w.readings = pre →
          (main w).latestBlockNumber = (successes pre).foldl max 0) := by
  have hmax : storedAfter rpcConfig latestBlockNumber pre = (successes pre).foldl max 0 :=
    storedAfter_eq_foldl_max rpcConfig latestBlockNumber pre
  have hiff : (newBlockEvents
        (loopBody rpcConfig (storedAfter rpcConfig latestBlockNumber pre) r).effects ≠ [] ↔
      ∃ n, r = Reading.height n ∧ 0 < n ∧ ∀ m ∈ successes pre, m < n) := by
    rw [fires_iff, hmax]
    constructor
    · rintro ⟨n, hr, hn⟩
      exact ⟨n, hr, (foldl_max_lt_iff _ _ _).mp hn⟩
    · rintro ⟨n, hr, hn⟩
      exact ⟨n, hr, (foldl_max_lt_iff _ _ _).mpr hn⟩
  refine ⟨hmax, iterations_snoc rpcConfig latestBlockNumber pre r, hiff, ?_, ?_, ?_, ?_⟩
  · intro n hr h0 hall
    subst hr
    have hlt : storedAfter rpcConfig latestBlockNumber pre < n := by
      rw [hmax]
      exact (foldl_max_lt_iff _ _ _).mpr ⟨h0, hall⟩
    exact ⟨newBlockEvents_higher rpcConfig _ n hlt, launchedProbes_higher rpcConfig _ n hlt⟩
  · intro hnone
    cases r with
    | failure err => rfl
    | height n =>
        rw [newBlockEvents_loopBody] at hnone
        rw [launchedProbes_loopBody]
        by_cases hlt : storedAfter rpcConfig latestBlockNumber pre < n
        · simp [hlt] at hnone
        · simp [hlt]
  · intro n hr hnil
    rw [hiff]
    subst hr
    simp [hnil]
  · intro w file reference rest hread hparse hreg hdial hreadings
    rw [main_started w file rpcConfig reference rest hread hparse hreg hdial, hreadings]
    exact hmax

/-- Concrete instances: a failed poll, then readings 10 and 12; and a run of `main`. -/
theorem stored_height_is_running_maximum_witness :
    newBlockEvents (loopBody registryAB
        (storedAfter registryAB latestBlockNumber [Reading.failure "timeout", Reading.height 10])
        (Reading.height 12)).effects = [12]
      ∧ (main (startedWorld registryAB [10, 12, 11])).latestBlockNumber = 12 :=
  ⟨((stored_height_is_running_maximum registryAB
      [Reading.failure "timeout", Reading.height 10] (Reading.height 12)).2.2.2.1
        12 rfl (by decide) (by decide)).1,
    ((stored_height_is_running_maximum registryAB
      ([10, 12, 11].map Reading.height) (Reading.height 15)).2.2.2.2.2.2
        (startedWorld registryAB [10, 12, 11]) "rpc_endpoints"
        { Name := "A", URL := "urlA" } [{ Name := "B", URL := "urlB" }]
        rfl rfl rfl rfl rfl).trans (by decide)⟩

/-! ## Start-up and the worked scenario: claims -/

/-- C9: when `config.yaml` is readable and parses to a configuration with zero
endpoints, `main` stops at the index expression `rpcConfig.RPCEndpoints[0]` of
`monitorBlockChanges`: by then it has printed its two status lines and started
the metrics server, and it has made no `Dial`, no reference height query and
started no `checkRPC` goroutine, whatever the environment would have answered.
Conversely, for every non-empty endpoint list the index expression yields the
first entry, `monitorBlockChanges` does not stop there, and its first effect is
the `Dial` of that entry's URL. -/
theorem empty_registry_stops_before_any_query :
    (∀ (w : World) (file : String), w.readFile = Except.ok file →
        w.unmarshal file = Except.ok { RPCEndpoints := [] } →
        (main w).stopped = some Termination.panicIndexOutOfRange
          ∧ heightQueries (main w).effects = 0
          ∧ launchedProbes (main w).effects = []
          ∧ (∀ url, Effect.dial url ∉ (main w).effects)
          ∧ (main w).effects =
              [Effect.printStarted, Effect.readConfigFile, Effect.printConfigLoaded,
                Effect.goStartMetricsServer])
      ∧ (∀ (rpcConfig : RPCConfig), rpcConfig.RPCEndpoints ≠ [] →
          ∃ reference, rpcConfig.RPCEndpoints[0]? = some reference
            ∧ rpcConfig.RPCEndpoints.head? = some reference
            ∧ ∀ (stored : Nat) (dialErr : Option String) (readings : List Reading),
                (monitorBlockChanges rpcConfig stored dialErr readings).stopped ≠
                    some Termination.panicIndexOutOfRange
                  ∧ (monitorBlockChanges rpcConfig stored dialErr readings).effects.head? =
                      some (Effect.dial reference.URL)) := by
  constructor
  · intro w file hread hparse
    rw [main_effects_of_empty w file hread hparse]
    refine ⟨rfl, rfl, rfl, ?_, rfl⟩
    intro url
    simp
  · intro rpcConfig hne
    cases hreg : rpcConfig.RPCEndpoints with
    | nil => exact absurd hreg hne
    | cons reference rest =>
        refine ⟨reference, by simp, by simp, ?_⟩
        intro stored dialErr readings
        cases dialErr with
        | none => simp [monitorBlockChanges, hreg]
        | some err => simp [monitorBlockChanges, hreg]

/-- Concrete instances: the empty configuration, and the two-endpoint registry. -/
theorem empty_registry_stops_before_any_query_witness :
    ((main (emptyConfigWorld [Reading.height 5])).stopped =
          some Termination.panicIndexOutOfRange
        ∧ heightQueries (main (emptyConfigWorld [Reading.height 5])).effects = 0)
      ∧ (∃ reference, registryAB.RPCEndpoints[0]? = some reference) :=
  ⟨⟨(empty_registry_stops_before_any_query.1 (emptyConfigWorld [Reading.height 5])
        "rpc_endpoints: []" rfl rfl).1,
      (empty_registry_stops_before_any_query.1 (emptyConfigWorld [Reading.height 5])
        "rpc_endpoints: []" rfl rfl).2.1⟩,
    (empty_registry_stops_before_any_query.2 registryAB (by decide)).imp (fun _ h => h.1)⟩

/-- C5, as the code behaves: with registry `[(A, urlA), (B, urlB)]`, the initial
state and reference readings 100, 100, 101, the first poll already announces a
new block (100 is higher than the initial stored height 0) and starts the two
probes, the second poll announces nothing and starts no probe, and the third poll
announces exactly one new block and starts exactly two probes, for `(A, urlA)`
and for `(B, urlB)`.  Every probe started in this run of `main` is for one of
these two label pairs, and if it succeeds it calls `Observe` exactly once, adding
exactly one sample under its own label pair and none under any other. -/
theorem scenario_100_100_101 {V : Type} (seconds : Int → V) (hist : HistogramVec V)
    (probe : String × String) (w : ProbeWorld)
    (hprobe : probe ∈ launchedProbes (main (startedWorld registryAB [100, 100, 101])).effects)
    (hok : w.fails = false) :
    (iterations registryAB latestBlockNumber ([100, 100, 101].map Reading.height)).map
        (fun it => newBlockEvents it.effects) = [[100], [], [101]]
      ∧ (iterations registryAB latestBlockNumber ([100, 100, 101].map Reading.height)).map
          (fun it => launchedProbes it.effects) =
            [[("A", "urlA"), ("B", "urlB")], [], [("A", "urlA"), ("B", "urlB")]]
      ∧ (main (startedWorld registryAB [100, 100, 101])).effects =
          [Effect.printStarted, Effect.readConfigFile, Effect.printConfigLoaded,
            Effect.goStartMetricsServer, Effect.dial "urlA"]
            ++ traceOf (iterations registryAB latestBlockNumber
                ([100, 100, 101].map Reading.height))
      ∧ (probe = ("A", "urlA") ∨ probe = ("B", "urlB"))
      ∧ (checkRPC seconds hist probe.1 probe.2 w).histogram.sampleCount probe =
          hist.sampleCount probe + 1
      ∧ (∀ l : Label, l ≠ probe →
          (checkRPC seconds hist probe.1 probe.2 w).histogram.samples l = hist.samples l)
      ∧ (observations (checkRPC seconds hist probe.1 probe.2 w).effects).map Prod.fst =
          [probe] := by
  obtain ⟨hd, n, hb⟩ := (fails_false_iff w).mp hok
  obtain ⟨name, url⟩ := probe
  have hrun := checkRPC_succeeded seconds hist name url w n hd hb
  refine ⟨by decide, by decide, by decide, ?_, ?_, ?_, ?_⟩
  · have hall : launchedProbes (main (startedWorld registryAB [100, 100, 101])).effects =
        [("A", "urlA"), ("B", "urlB"), ("A", "urlA"), ("B", "urlB")] := by decide
    rw [hall] at hprobe
    simp only [List.mem_cons, List.mem_singleton, List.mem_nil_iff, or_false] at hprobe
    tauto
  · rw [hrun]
    simp [HistogramVec.sampleCount, samples_observe_self]
  · intro l hl
    rw [hrun]
    exact samples_observe_other hist name url _ l hl
  · rw [hrun]
    rfl

/-- Concrete instance: the probe for `(B, urlB)` succeeds on a histogram holding one sample of `A`. -/
theorem scenario_100_100_101_witness :
    (checkRPC (fun d : Int => d) [(("A", "urlA"), 7)] "B" "urlB"
        { clockAtEntry := 0, dialErr := none, clockAfterDial := 400,
          blockNumber := Reading.height 101, clockAfterRequest := 650 }).histogram.sampleCount
        ("B", "urlB") = 1 :=
  (scenario_100_100_101 (fun d : Int => d) [(("A", "urlA"), 7)] ("B", "urlB")
    { clockAtEntry := 0, dialErr := none, clockAfterDial := 400,
      blockNumber := Reading.height 101, clockAfterRequest := 650 }
    (by decide) rfl).2.2.2.2.1

/-- C5, as stated, fails: in the scenario it is not the case that the first and
the second poll announce nothing and the third announces one new block; the
first poll announces block 100. -/
theorem first_poll_of_scenario_announces_block :
    ¬ ((iterations registryAB latestBlockNumber ([100, 100, 101].map Reading.height)).map
        (fun it => newBlockEvents it.effects) = [[], [], [101]]) := by
  decide

end EthRpcMonitor
